import Mathlib

/-!
Shallow embedding of the agent-chat-finance repository (a React chat client
backed by a Supabase-style storage service and an external AI webhook).

The repository contains two near-duplicate Chat screens:
  - src/unnamed/part_000   (reads a conversation id from the URL query string,
    rejects whitespace-only webhook replies) — embedded under `Part000`;
  - src/src/pages/Chat.tsx (no URL parameter, auto-creates a conversation,
    performs no empty-body check on the webhook reply) — embedded under `ChatTsx`.
plus the history screen src/src/pages/ChatHistory.tsx, embedded under
`ChatHistory`.

Machine model: the backend database is a record of conversation and message
rows together with a logical clock; every row created by an insert receives
the current clock as its timestamp and bumps the clock, mirroring backend
`now()` defaults.  Fallibility of the storage and webhook calls is injected
through explicit environment records (`SendEnv`, `LoadEnv`), and each screen
operation returns the resulting database, the resulting component state, and
a trace of the externally visible events it performed.
-/

namespace AgentChat

/-- A row of the `messages` table: columns id, conversation_id, content,
role and created_at (timestamps are modelled by the database clock). -/
structure Message where
  id : Nat
  conversation_id : Nat
  content : String
  role : String
  created_at : Nat
deriving DecidableEq, Repr

/-- A row of the `conversations` table: columns id, user_id, title,
created_at and updated_at. -/
structure Conversation where
  id : Nat
  user_id : Nat
  title : String
  created_at : Nat
  updated_at : Nat
deriving DecidableEq, Repr

/-- The remote database: both tables, a fresh-id supply and a logical clock
used to stamp created_at / updated_at columns. -/
structure DB where
  conversations : List Conversation
  messages : List Message
  nextId : Nat
  clock : Nat
deriving DecidableEq, Repr

/-- Insert into `messages` with generated id and created_at = now
(the supabase insert-returning call). -/
def DB.insertMessage (db : DB) (convId : Nat) (content role : String) :
    DB × Message :=
  let m : Message := ⟨db.nextId, convId, content, role, db.clock⟩
  ({ db with messages := db.messages ++ [m],
             nextId := db.nextId + 1, clock := db.clock + 1 }, m)

/-- Insert into `conversations` with generated id and
created_at = updated_at = now. -/
def DB.insertConversation (db : DB) (uid : Nat) (title : String) :
    DB × Conversation :=
  let c : Conversation := ⟨db.nextId, uid, title, db.clock, db.clock⟩
  ({ db with conversations := db.conversations ++ [c],
             nextId := db.nextId + 1, clock := db.clock + 1 }, c)

/-- The update-by-id call that refreshes a conversation's updated_at to the
current time. -/
def DB.touchConversation (db : DB) (convId : Nat) : DB :=
  { db with
    conversations := db.conversations.map fun c =>
      if c.id = convId then { c with updated_at := db.clock } else c,
    clock := db.clock + 1 }

/-- Order relation behind `order by created_at ascending`. -/
def createdLE (a b : Message) : Prop := a.created_at ≤ b.created_at

instance : DecidableRel createdLE := fun a b =>
  inferInstanceAs (Decidable (a.created_at ≤ b.created_at))

instance : IsTotal Message createdLE :=
  ⟨fun a b => Nat.le_total a.created_at b.created_at⟩

instance : IsTrans Message createdLE :=
  ⟨fun _ _ _ h h' => Nat.le_trans h h'⟩

/-- Order relation behind `order by updated_at descending`. -/
def updatedGE (a b : Conversation) : Prop := b.updated_at ≤ a.updated_at

instance : DecidableRel updatedGE := fun a b =>
  inferInstanceAs (Decidable (b.updated_at ≤ a.updated_at))

instance : IsTotal Conversation updatedGE :=
  ⟨fun a b => Nat.le_total b.updated_at a.updated_at⟩

instance : IsTrans Conversation updatedGE :=
  ⟨fun _ _ _ h h' => Nat.le_trans h' h⟩

/-- The query select * from messages where conversation_id = convId
order by created_at ascending. -/
def fetchMessagesAsc (db : DB) (convId : Nat) : List Message :=
  (db.messages.filter fun m => m.conversation_id == convId).insertionSort createdLE

/-- The query select ... from conversations where user_id = uid
order by updated_at descending (no limit). -/
def userConversationsDesc (db : DB) (uid : Nat) : List Conversation :=
  (db.conversations.filter fun c => c.user_id == uid).insertionSort updatedGE

/-- The query ... eq id, eq user_id, single: succeeds iff exactly one row
matches. -/
def singleConv (db : DB) (convId uid : Nat) : Option Conversation :=
  match db.conversations.filter fun c => c.id == convId && c.user_id == uid with
  | [c] => some c
  | _ => none

/-- The JS String.prototype.trim used by both screens, modelled directly
over the underlying character list: strip leading and trailing whitespace. -/
def jsTrim (s : String) : String :=
  ⟨((s.data.dropWhile Char.isWhitespace).reverse.dropWhile Char.isWhitespace).reverse⟩

/-- An HTTP response from the AI webhook. -/
structure WebhookResponse where
  status : Nat
  body : String
deriving DecidableEq, Repr

/-- The fetch API response.ok flag: status in the 2xx range. -/
def WebhookResponse.ok (r : WebhookResponse) : Bool :=
  200 ≤ r.status && r.status < 300

/-- The JSON payload sent to the webhook. -/
structure WebhookPayload where
  message : String
  user_id : Nat
  conversation_id : Nat
deriving DecidableEq, Repr

/-- Fault-injection environment for one run of sendMessage: whether each
storage call succeeds, and the webhook outcome (none = network failure). -/
structure SendEnv where
  insertUserOk : Bool
  webhookResp : Option WebhookResponse
  insertAssistantOk : Bool
  updateOk : Bool
deriving DecidableEq, Repr

/-- Externally visible events performed by a screen operation. -/
inductive Event where
  | insertUserMsg (convId : Nat) (content : String) (ok : Bool)
  | webhookCall (payload : WebhookPayload)
  | insertAssistantMsg (convId : Nat) (content : String) (ok : Bool)
  | updateTimestamp (convId : Nat) (ok : Bool)
  | toastError (description : String)
deriving DecidableEq, Repr

def Event.isUserInsert : Event → Bool
  | .insertUserMsg _ _ _ => true
  | _ => false

def Event.isWebhookCall : Event → Bool
  | .webhookCall _ => true
  | _ => false

def Event.isAssistantInsert : Event → Bool
  | .insertAssistantMsg _ _ _ => true
  | _ => false

def Event.isToast : Event → Bool
  | .toastError _ => true
  | _ => false

/-- Result of one run of sendMessage: the database afterwards, the
transcript (messages component state) afterwards, and the event trace. -/
structure SendOutcome where
  db : DB
  transcript : List Message
  trace : List Event
deriving DecidableEq, Repr

namespace Part000

/-- Embeds sendMessage from src/unnamed/part_000 (lines 159-255): guard on
trimmed input / active conversation / session; insert the user message
(throw on error); POST the payload to the webhook; throw on a non-2xx
status; throw on an empty or whitespace-only reply body; insert the
assistant message (throw on error); update the conversation's updated_at
without checking that call's error; every thrown error is caught and
surfaced as a destructive toast. -/
def sendMessage (db : DB) (transcript : List Message)
    (currentMessage : String) (currentConversation : Option Nat)
    (sessionUser : Option Nat) (env : SendEnv) : SendOutcome :=
  match currentConversation, sessionUser with
  | some convId, some uid =>
    if jsTrim currentMessage = "" then ⟨db, transcript, []⟩
    else
      let userMessage := jsTrim currentMessage
      if env.insertUserOk then
        let res := db.insertMessage convId userMessage "user"
        let db1 := res.1
        let t1 := transcript ++ [res.2]
        let payload : WebhookPayload := ⟨userMessage, uid, convId⟩
        let ev2 := [Event.insertUserMsg convId userMessage true,
                    Event.webhookCall payload]
        match env.webhookResp with
        | none =>
          ⟨db1, t1, ev2 ++ [Event.toastError "Não foi possível enviar a mensagem"]⟩
        | some resp =>
          if resp.ok then
            let aiResponse := resp.body
            if jsTrim aiResponse = "" then
              ⟨db1, t1, ev2 ++ [Event.toastError "Resposta vazia do agente IA"]⟩
            else if env.insertAssistantOk then
              let res2 := db1.insertMessage convId aiResponse "assistant"
              let db3 := if env.updateOk then res2.1.touchConversation convId else res2.1
              ⟨db3, t1 ++ [res2.2],
               ev2 ++ [Event.insertAssistantMsg convId aiResponse true,
                       Event.updateTimestamp convId env.updateOk]⟩
            else
              ⟨db1, t1, ev2 ++ [Event.insertAssistantMsg convId aiResponse false,
                                Event.toastError "Não foi possível enviar a mensagem"]⟩
          else
            ⟨db1, t1,
             ev2 ++ [Event.toastError
               ("Erro na comunicação com o agente: " ++ toString resp.status)]⟩
      else
        ⟨db, transcript,
         [Event.insertUserMsg convId userMessage false,
          Event.toastError "Não foi possível enviar a mensagem"]⟩
  | _, _ => ⟨db, transcript, []⟩

end Part000

namespace ChatTsx

/-- Embeds sendMessage from src/src/pages/Chat.tsx (lines 131-211): same
sequence as the part_000 variant except that the reply body is inserted as
the assistant message without any empty-body check, and the non-2xx error
message carries no status code. -/
def sendMessage (db : DB) (transcript : List Message)
    (currentMessage : String) (currentConversation : Option Nat)
    (sessionUser : Option Nat) (env : SendEnv) : SendOutcome :=
  match currentConversation, sessionUser with
  | some convId, some uid =>
    if jsTrim currentMessage = "" then ⟨db, transcript, []⟩
    else
      let userMessage := jsTrim currentMessage
      if env.insertUserOk then
        let res := db.insertMessage convId userMessage "user"
        let db1 := res.1
        let t1 := transcript ++ [res.2]
        let payload : WebhookPayload := ⟨userMessage, uid, convId⟩
        let ev2 := [Event.insertUserMsg convId userMessage true,
                    Event.webhookCall payload]
        match env.webhookResp with
        | none =>
          ⟨db1, t1, ev2 ++ [Event.toastError "Não foi possível enviar a mensagem"]⟩
        | some resp =>
          if resp.ok then
            let aiResponse := resp.body
            if env.insertAssistantOk then
              let res2 := db1.insertMessage convId aiResponse "assistant"
              let db3 := if env.updateOk then res2.1.touchConversation convId else res2.1
              ⟨db3, t1 ++ [res2.2],
               ev2 ++ [Event.insertAssistantMsg convId aiResponse true,
                       Event.updateTimestamp convId env.updateOk]⟩
            else
              ⟨db1, t1, ev2 ++ [Event.insertAssistantMsg convId aiResponse false,
                                Event.toastError "Não foi possível enviar a mensagem"]⟩
          else
            ⟨db1, t1, ev2 ++ [Event.toastError "Erro na comunicação com o agente"]⟩
      else
        ⟨db, transcript,
         [Event.insertUserMsg convId userMessage false,
          Event.toastError "Não foi possível enviar a mensagem"]⟩
  | _, _ => ⟨db, transcript, []⟩

end ChatTsx

/-- Fault-injection environment for one run of createOrLoadConversation:
whether the conversation query, the messages query and (ChatTsx variant) the
conversation insert succeed. -/
structure LoadEnv where
  convQueryOk : Bool
  messagesQueryOk : Bool
  insertConvOk : Bool
deriving DecidableEq, Repr

/-- Result of one run of createOrLoadConversation: the database afterwards,
the currentConversation state if it was set, the transcript if setMessages
was reached (none = never called), the navigation target if navigate was
called, and the toasts shown. -/
structure LoadOutcome where
  db : DB
  currentConversation : Option Nat
  transcript : Option (List Message)
  navigatedTo : Option String
  toasts : List String
deriving DecidableEq, Repr

namespace Part000

/-- Embeds createOrLoadConversation from src/unnamed/part_000 (lines
76-157): with a `conversation` query-string parameter, fetch that
conversation scoped to (id, session user) with a single-row query, then its
messages ordered by created_at ascending; without the parameter, fetch the
user's most-recently-updated conversation (order by updated_at descending,
limit 1) and its messages, or redirect to /chat-history when the user has
none; any thrown error is caught, toasted and followed by a redirect to
/chat-history. -/
def createOrLoadConversation (db : DB) (urlConversation : Option Nat)
    (sessionUser : Option Nat) (env : LoadEnv) : LoadOutcome :=
  match sessionUser with
  | none => ⟨db, none, none, none, []⟩
  | some uid =>
    match urlConversation with
    | some convId =>
      if env.convQueryOk then
        match singleConv db convId uid with
        | none =>
          ⟨db, none, none, some "/chat-history",
           ["Não foi possível carregar a conversa"]⟩
        | some _conv =>
          if env.messagesQueryOk then
            ⟨db, some convId, some (fetchMessagesAsc db convId), none, []⟩
          else
            ⟨db, some convId, none, some "/chat-history",
             ["Não foi possível carregar a conversa"]⟩
      else
        ⟨db, none, none, some "/chat-history",
         ["Não foi possível carregar a conversa"]⟩
    | none =>
      if env.convQueryOk then
        match userConversationsDesc db uid with
        | [] => ⟨db, none, none, some "/chat-history", []⟩
        | c :: _ =>
          if env.messagesQueryOk then
            ⟨db, some c.id, some (fetchMessagesAsc db c.id), none, []⟩
          else
            ⟨db, some c.id, none, some "/chat-history",
             ["Não foi possível carregar a conversa"]⟩
      else
        ⟨db, none, none, some "/chat-history",
         ["Não foi possível carregar a conversa"]⟩

end Part000

namespace ChatTsx

/-- Embeds createOrLoadConversation from src/src/pages/Chat.tsx (lines
72-129): fetch the session user's most-recently-updated conversation (order
by updated_at descending, limit 1) and its messages ordered by created_at
ascending; when the user has none, insert a fresh conversation titled
Nova Conversa and start with an empty transcript; any thrown error is
caught and toasted, with no redirect. -/
def createOrLoadConversation (db : DB) (sessionUser : Option Nat)
    (env : LoadEnv) : LoadOutcome :=
  match sessionUser with
  | none => ⟨db, none, none, none, []⟩
  | some uid =>
    if env.convQueryOk then
      match userConversationsDesc db uid with
      | [] =>
        if env.insertConvOk then
          let res := db.insertConversation uid "Nova Conversa"
          ⟨res.1, some res.2.id, some [], none, []⟩
        else
          ⟨db, none, none, none, ["Não foi possível carregar a conversa"]⟩
      | c :: _ =>
        if env.messagesQueryOk then
          ⟨db, some c.id, some (fetchMessagesAsc db c.id), none, []⟩
        else
          ⟨db, some c.id, none, none, ["Não foi possível carregar a conversa"]⟩
    else
      ⟨db, none, none, none, ["Não foi possível carregar a conversa"]⟩

end ChatTsx

namespace ChatHistory

/-- Embeds loadConversations from src/src/pages/ChatHistory.tsx (lines
52-74): select id, title, created_at, updated_at from conversations where
user_id = session user, order by updated_at descending — no limit, no
pagination, no further filtering; on error the list stays empty and a toast
is shown.  Returns the conversations state and the toasts. -/
def loadConversations (db : DB) (sessionUser : Option Nat)
    (queryOk : Bool) : List Conversation × List String :=
  match sessionUser with
  | none => ([], [])
  | some uid =>
    if queryOk then (userConversationsDesc db uid, [])
    else ([], ["Não foi possível carregar o histórico"])

/-- Embeds createNewConversation from src/src/pages/ChatHistory.tsx (lines
76-99): insert a conversation with the session user's id and title
"Nova Conversa " followed by the localized current date, then navigate to
the chat screen scoped to the new id; on error, toast.  Returns the
database afterwards, the navigation target and the toasts. -/
def createNewConversation (db : DB) (sessionUser : Option Nat)
    (dateStr : String) (insertOk : Bool) : DB × Option String × List String :=
  match sessionUser with
  | none => (db, none, [])
  | some uid =>
    if insertOk then
      let res := db.insertConversation uid ("Nova Conversa " ++ dateStr)
      (res.1, some ("/chat?conversation=" ++ toString res.2.id), [])
    else
      (db, none, ["Não foi possível criar nova conversa"])

end ChatHistory

/-- The Chat screen's component state relevant to the transcript invariant:
the rendered message list and the active conversation id. -/
structure UI where
  transcript : List Message
  currentConversation : Option Nat
deriving DecidableEq, Repr

/-- Apply a createOrLoadConversation outcome to the screen state: transcript
and currentConversation keep their previous values when the run never set
them. -/
def applyLoadOutcome (ui : UI) (out : LoadOutcome) : DB × UI :=
  (out.db,
   ⟨out.transcript.getD ui.transcript,
    match out.currentConversation with
    | some c => some c
    | none => ui.currentConversation⟩)

/-- One observable step of the Chat screen: a conversation load or a message
send, by either screen variant, under any session, input and environment. -/
inductive ChatStep : DB × UI → DB × UI → Prop where
  | load000 (db : DB) (ui : UI) (url su : Option Nat) (env : LoadEnv) :
      ChatStep (db, ui)
        (applyLoadOutcome ui (Part000.createOrLoadConversation db url su env))
  | loadTsx (db : DB) (ui : UI) (su : Option Nat) (env : LoadEnv) :
      ChatStep (db, ui)
        (applyLoadOutcome ui (ChatTsx.createOrLoadConversation db su env))
  | send000 (db : DB) (ui : UI) (input : String) (su : Option Nat) (env : SendEnv) :
      ChatStep (db, ui)
        ((Part000.sendMessage db ui.transcript input ui.currentConversation su env).db,
         ⟨(Part000.sendMessage db ui.transcript input ui.currentConversation su env).transcript,
          ui.currentConversation⟩)
  | sendTsx (db : DB) (ui : UI) (input : String) (su : Option Nat) (env : SendEnv) :
      ChatStep (db, ui)
        ((ChatTsx.sendMessage db ui.transcript input ui.currentConversation su env).db,
         ⟨(ChatTsx.sendMessage db ui.transcript input ui.currentConversation su env).transcript,
          ui.currentConversation⟩)

/-- Transcript well-ordering: message creation times are non-decreasing. -/
def Chrono (l : List Message) : Prop := l.Sorted createdLE

/-- Database sanity: every stored timestamp lies strictly in the past of the
database clock. -/
def DB.wf (db : DB) : Prop :=
  (∀ m ∈ db.messages, m.created_at < db.clock) ∧
  (∀ c ∈ db.conversations, c.updated_at < db.clock)

/-- Screen-state invariant: sane database, chronologically ordered transcript
whose timestamps are in the past of the clock. -/
def Inv (s : DB × UI) : Prop :=
  DB.wf s.1 ∧ Chrono s.2.transcript ∧
  ∀ m ∈ s.2.transcript, m.created_at < s.1.clock

theorem chrono_fetchMessagesAsc (db : DB) (convId : Nat) :
    Chrono (fetchMessagesAsc db convId) :=
  List.sorted_insertionSort createdLE _

theorem mem_fetchMessagesAsc (db : DB) (convId : Nat) (m : Message)
    (h : m ∈ fetchMessagesAsc db convId) : m ∈ db.messages := by
  have := (List.mem_insertionSort createdLE).mp h
  exact (List.mem_filter.mp this).1

theorem sortDesc_head_max (l : List Conversation) (hne : l ≠ []) :
    ∃ c rest, l.insertionSort updatedGE = c :: rest ∧ c ∈ l ∧
      ∀ x ∈ l, x.updated_at ≤ c.updated_at := by
  cases hs : l.insertionSort updatedGE with
  | nil =>
    have p := List.perm_insertionSort updatedGE l
    rw [hs] at p
    exact absurd p.symm.eq_nil hne
  | cons c rest =>
    refine ⟨c, rest, rfl, ?_, ?_⟩
    · have : c ∈ l.insertionSort updatedGE := by
        rw [hs]; exact List.mem_cons_self c rest
      exact (List.mem_insertionSort updatedGE).mp this
    · intro x hx
      have hx' : x ∈ c :: rest := by
        rw [← hs]; exact (List.mem_insertionSort updatedGE).mpr hx
      rcases List.mem_cons.mp hx' with h | h
      · rw [h]
      · have hsorted := List.sorted_insertionSort updatedGE l
        rw [hs] at hsorted
        exact (List.pairwise_cons.mp hsorted).1 x h

theorem sortDesc_head_of_strict_max (l : List Conversation) (c : Conversation)
    (hc : c ∈ l)
    (hmax : ∀ x ∈ l, x ≠ c → x.updated_at < c.updated_at) :
    (l.insertionSort updatedGE).head? = some c := by
  rcases sortDesc_head_max l (by rintro rfl; simp at hc) with ⟨h, rest, hs, hmem, hmax'⟩
  rw [hs]
  by_cases hhc : h = c
  · rw [hhc]; rfl
  · exact absurd (hmax h hmem hhc) (Nat.not_lt.mpr (hmax' c hc))

theorem chrono_append_one (l : List Message) (m : Message) (h : Chrono l)
    (hm : ∀ x ∈ l, x.created_at ≤ m.created_at) : Chrono (l ++ [m]) := by
  rw [Chrono, List.Sorted, List.pairwise_append]
  refine ⟨h, List.pairwise_singleton _ _, fun a ha b hb => ?_⟩
  rcases List.mem_singleton.mp hb with rfl
  exact hm a ha

theorem preserve_insert (db : DB) (t : List Message) (cid : Nat)
    (content r : String)
    (hwf : DB.wf db) (hch : Chrono t)
    (hlt : ∀ m ∈ t, m.created_at < db.clock) :
    DB.wf (db.insertMessage cid content r).1 ∧
    Chrono (t ++ [(db.insertMessage cid content r).2]) ∧
    ∀ m ∈ t ++ [(db.insertMessage cid content r).2],
      m.created_at < (db.insertMessage cid content r).1.clock := by
  obtain ⟨hmsgs, hconvs⟩ := hwf
  refine ⟨⟨?_, ?_⟩, ?_, ?_⟩
  · intro m hm
    simp only [DB.insertMessage, List.mem_append, List.mem_singleton] at hm ⊢
    rcases hm with hm | rfl
    · exact Nat.lt_succ_of_lt (hmsgs m hm)
    · exact Nat.lt_succ_self _
  · intro c hc
    simp only [DB.insertMessage] at hc ⊢
    exact Nat.lt_succ_of_lt (hconvs c hc)
  · exact chrono_append_one t _ hch fun x hx => Nat.le_of_lt (hlt x hx)
  · intro m hm
    simp only [DB.insertMessage, List.mem_append, List.mem_singleton] at hm ⊢
    rcases hm with hm | rfl
    · exact Nat.lt_succ_of_lt (hlt m hm)
    · exact Nat.lt_succ_self _

theorem preserve_touch (db : DB) (t : List Message) (cid : Nat)
    (hwf : DB.wf db) (hch : Chrono t)
    (hlt : ∀ m ∈ t, m.created_at < db.clock) :
    DB.wf (db.touchConversation cid) ∧ Chrono t ∧
    ∀ m ∈ t, m.created_at < (db.touchConversation cid).clock := by
  obtain ⟨hmsgs, hconvs⟩ := hwf
  refine ⟨⟨?_, ?_⟩, hch, ?_⟩
  · intro m hm
    simp only [DB.touchConversation] at hm ⊢
    exact Nat.lt_succ_of_lt (hmsgs m hm)
  · intro c hc
    simp only [DB.touchConversation, List.mem_map] at hc
    rcases hc with ⟨c0, hc0, rfl⟩
    by_cases hid : c0.id = cid
    · simp only [DB.touchConversation, hid, if_true]
      exact Nat.lt_succ_self _
    · simp only [DB.touchConversation, hid, if_false]
      exact Nat.lt_succ_of_lt (hconvs c0 hc0)
  · intro m hm
    simp only [DB.touchConversation]
    exact Nat.lt_succ_of_lt (hlt m hm)

theorem wf_insertConversation (db : DB) (uid : Nat) (title : String)
    (hwf : DB.wf db) : DB.wf (db.insertConversation uid title).1 := by
  obtain ⟨hmsgs, hconvs⟩ := hwf
  constructor
  · intro m hm
    simp only [DB.insertConversation] at hm ⊢
    exact Nat.lt_succ_of_lt (hmsgs m hm)
  · intro c hc
    simp only [DB.insertConversation, List.mem_append, List.mem_singleton] at hc ⊢
    rcases hc with hc | rfl
    · exact Nat.lt_succ_of_lt (hconvs c hc)
    · exact Nat.lt_succ_self _

theorem send000_preserves (db : DB) (t : List Message) (msg : String)
    (conv su : Option Nat) (env : SendEnv)
    (hwf : DB.wf db) (hch : Chrono t)
    (hlt : ∀ m ∈ t, m.created_at < db.clock) :
    DB.wf (Part000.sendMessage db t msg conv su env).db ∧
    Chrono (Part000.sendMessage db t msg conv su env).transcript ∧
    ∀ m ∈ (Part000.sendMessage db t msg conv su env).transcript,
      m.created_at < (Part000.sendMessage db t msg conv su env).db.clock := by
  rcases conv with _ | convId
  · exact ⟨hwf, hch, hlt⟩
  rcases su with _ | uid
  · exact ⟨hwf, hch, hlt⟩
  by_cases hm : jsTrim msg = ""
  · have hout : Part000.sendMessage db t msg (some convId) (some uid) env =
        ⟨db, t, []⟩ := by simp [Part000.sendMessage, hm]
    rw [hout]; exact ⟨hwf, hch, hlt⟩
  rcases env with ⟨iu, wr, ia, up⟩
  have h1 := preserve_insert db t convId (jsTrim msg) "user" hwf hch hlt
  cases iu with
  | false =>
    have hout : Part000.sendMessage db t msg (some convId) (some uid)
        ⟨false, wr, ia, up⟩ = ⟨db, t,
          [Event.insertUserMsg convId (jsTrim msg) false,
           Event.toastError "Não foi possível enviar a mensagem"]⟩ := by
      simp [Part000.sendMessage, hm]
    rw [hout]; exact ⟨hwf, hch, hlt⟩
  | true =>
    rcases wr with _ | r
    · have hout : Part000.sendMessage db t msg (some convId) (some uid)
          ⟨true, none, ia, up⟩ =
          ⟨(db.insertMessage convId (jsTrim msg) "user").1,
           t ++ [(db.insertMessage convId (jsTrim msg) "user").2],
           [Event.insertUserMsg convId (jsTrim msg) true,
            Event.webhookCall ⟨jsTrim msg, uid, convId⟩,
            Event.toastError "Não foi possível enviar a mensagem"]⟩ := by
        simp [Part000.sendMessage, hm]
      rw [hout]; exact h1
    by_cases hok : r.ok = true
    · by_cases hb : jsTrim r.body = ""
      · have hout : Part000.sendMessage db t msg (some convId) (some uid)
            ⟨true, some r, ia, up⟩ =
            ⟨(db.insertMessage convId (jsTrim msg) "user").1,
             t ++ [(db.insertMessage convId (jsTrim msg) "user").2],
             [Event.insertUserMsg convId (jsTrim msg) true,
              Event.webhookCall ⟨jsTrim msg, uid, convId⟩,
              Event.toastError "Resposta vazia do agente IA"]⟩ := by
          simp [Part000.sendMessage, hm, hok, hb]
        rw [hout]; exact h1
      · have h2 := preserve_insert (db.insertMessage convId (jsTrim msg) "user").1
          (t ++ [(db.insertMessage convId (jsTrim msg) "user").2]) convId r.body
          "assistant" h1.1 h1.2.1 h1.2.2
        cases ia with
        | false =>
          have hout : Part000.sendMessage db t msg (some convId) (some uid)
              ⟨true, some r, false, up⟩ =
              ⟨(db.insertMessage convId (jsTrim msg) "user").1,
               t ++ [(db.insertMessage convId (jsTrim msg) "user").2],
               [Event.insertUserMsg convId (jsTrim msg) true,
                Event.webhookCall ⟨jsTrim msg, uid, convId⟩,
                Event.insertAssistantMsg convId r.body false,
                Event.toastError "Não foi possível enviar a mensagem"]⟩ := by
            simp [Part000.sendMessage, hm, hok, hb]
          rw [hout]; exact h1
        | true =>
          cases up with
          | false =>
            have hout : Part000.sendMessage db t msg (some convId) (some uid)
                ⟨true, some r, true, false⟩ =
                ⟨((db.insertMessage convId (jsTrim msg) "user").1.insertMessage
                    convId r.body "assistant").1,
                 (t ++ [(db.insertMessage convId (jsTrim msg) "user").2]) ++
                   [((db.insertMessage convId (jsTrim msg) "user").1.insertMessage
                      convId r.body "assistant").2],
                 [Event.insertUserMsg convId (jsTrim msg) true,
                  Event.webhookCall ⟨jsTrim msg, uid, convId⟩,
                  Event.insertAssistantMsg convId r.body true,
                  Event.updateTimestamp convId false]⟩ := by
              simp [Part000.sendMessage, hm, hok, hb]
            rw [hout]; exact h2
          | true =>
            have h3 := preserve_touch
              ((db.insertMessage convId (jsTrim msg) "user").1.insertMessage
                convId r.body "assistant").1
              ((t ++ [(db.insertMessage convId (jsTrim msg) "user").2]) ++
                [((db.insertMessage convId (jsTrim msg) "user").1.insertMessage
                   convId r.body "assistant").2]) convId h2.1 h2.2.1 h2.2.2
            have hout : Part000.sendMessage db t msg (some convId) (some uid)
                ⟨true, some r, true, true⟩ =
                ⟨(((db.insertMessage convId (jsTrim msg) "user").1.insertMessage
                    convId r.body "assistant").1.touchConversation convId),
                 (t ++ [(db.insertMessage convId (jsTrim msg) "user").2]) ++
                   [((db.insertMessage convId (jsTrim msg) "user").1.insertMessage
                      convId r.body "assistant").2],
                 [Event.insertUserMsg convId (jsTrim msg) true,
                  Event.webhookCall ⟨jsTrim msg, uid, convId⟩,
                  Event.insertAssistantMsg convId r.body true,
                  Event.updateTimestamp convId true]⟩ := by
              simp [Part000.sendMessage, hm, hok, hb]
            rw [hout]; exact h3
    · have hout : Part000.sendMessage db t msg (some convId) (some uid)
          ⟨true, some r, ia, up⟩ =
          ⟨(db.insertMessage convId (jsTrim msg) "user").1,
           t ++ [(db.insertMessage convId (jsTrim msg) "user").2],
           [Event.insertUserMsg convId (jsTrim msg) true,
            Event.webhookCall ⟨jsTrim msg, uid, convId⟩,
            Event.toastError
              ("Erro na comunicação com o agente: " ++ toString r.status)]⟩ := by
        simp [Part000.sendMessage, hm, hok]
      rw [hout]; exact h1


theorem sendTsx_preserves (db : DB) (t : List Message) (msg : String)
    (conv su : Option Nat) (env : SendEnv)
    (hwf : DB.wf db) (hch : Chrono t)
    (hlt : ∀ m ∈ t, m.created_at < db.clock) :
    DB.wf (ChatTsx.sendMessage db t msg conv su env).db ∧
    Chrono (ChatTsx.sendMessage db t msg conv su env).transcript ∧
    ∀ m ∈ (ChatTsx.sendMessage db t msg conv su env).transcript,
      m.created_at < (ChatTsx.sendMessage db t msg conv su env).db.clock := by
  rcases conv with _ | convId
  · exact ⟨hwf, hch, hlt⟩
  rcases su with _ | uid
  · exact ⟨hwf, hch, hlt⟩
  by_cases hm : jsTrim msg = ""
  · have hout : ChatTsx.sendMessage db t msg (some convId) (some uid) env =
        ⟨db, t, []⟩ := by simp [ChatTsx.sendMessage, hm]
    rw [hout]; exact ⟨hwf, hch, hlt⟩
  rcases env with ⟨iu, wr, ia, up⟩
  have h1 := preserve_insert db t convId (jsTrim msg) "user" hwf hch hlt
  cases iu with
  | false =>
    have hout : ChatTsx.sendMessage db t msg (some convId) (some uid)
        ⟨false, wr, ia, up⟩ = ⟨db, t,
          [Event.insertUserMsg convId (jsTrim msg) false,
           Event.toastError "Não foi possível enviar a mensagem"]⟩ := by
      simp [ChatTsx.sendMessage, hm]
    rw [hout]; exact ⟨hwf, hch, hlt⟩
  | true =>
    rcases wr with _ | r
    · have hout : ChatTsx.sendMessage db t msg (some convId) (some uid)
          ⟨true, none, ia, up⟩ =
          ⟨(db.insertMessage convId (jsTrim msg) "user").1,
           t ++ [(db.insertMessage convId (jsTrim msg) "user").2],
           [Event.insertUserMsg convId (jsTrim msg) true,
            Event.webhookCall ⟨jsTrim msg, uid, convId⟩,
            Event.toastError "Não foi possível enviar a mensagem"]⟩ := by
        simp [ChatTsx.sendMessage, hm]
      rw [hout]; exact h1
    by_cases hok : r.ok = true
    · have h2 := preserve_insert (db.insertMessage convId (jsTrim msg) "user").1
        (t ++ [(db.insertMessage convId (jsTrim msg) "user").2]) convId r.body
        "assistant" h1.1 h1.2.1 h1.2.2
      cases ia with
      | false =>
        have hout : ChatTsx.sendMessage db t msg (some convId) (some uid)
            ⟨true, some r, false, up⟩ =
            ⟨(db.insertMessage convId (jsTrim msg) "user").1,
             t ++ [(db.insertMessage convId (jsTrim msg) "user").2],
             [Event.insertUserMsg convId (jsTrim msg) true,
              Event.webhookCall ⟨jsTrim msg, uid, convId⟩,
              Event.insertAssistantMsg convId r.body false,
              Event.toastError "Não foi possível enviar a mensagem"]⟩ := by
          simp [ChatTsx.sendMessage, hm, hok]
        rw [hout]; exact h1
      | true =>
        cases up with
        | false =>
          have hout : ChatTsx.sendMessage db t msg (some convId) (some uid)
              ⟨true, some r, true, false⟩ =
              ⟨((db.insertMessage convId (jsTrim msg) "user").1.insertMessage
                  convId r.body "assistant").1,
               (t ++ [(db.insertMessage convId (jsTrim msg) "user").2]) ++
                 [((db.insertMessage convId (jsTrim msg) "user").1.insertMessage
                    convId r.body "assistant").2],
               [Event.insertUserMsg convId (jsTrim msg) true,
                Event.webhookCall ⟨jsTrim msg, uid, convId⟩,
                Event.insertAssistantMsg convId r.body true,
                Event.updateTimestamp convId false]⟩ := by
            simp [ChatTsx.sendMessage, hm, hok]
          rw [hout]; exact h2
        | true =>
          have h3 := preserve_touch
            ((db.insertMessage convId (jsTrim msg) "user").1.insertMessage
              convId r.body "assistant").1
            ((t ++ [(db.insertMessage convId (jsTrim msg) "user").2]) ++
              [((db.insertMessage convId (jsTrim msg) "user").1.insertMessage
                 convId r.body "assistant").2]) convId h2.1 h2.2.1 h2.2.2
          have hout : ChatTsx.sendMessage db t msg (some convId) (some uid)
              ⟨true, some r, true, true⟩ =
              ⟨(((db.insertMessage convId (jsTrim msg) "user").1.insertMessage
                  convId r.body "assistant").1.touchConversation convId),
               (t ++ [(db.insertMessage convId (jsTrim msg) "user").2]) ++
                 [((db.insertMessage convId (jsTrim msg) "user").1.insertMessage
                    convId r.body "assistant").2],
               [Event.insertUserMsg convId (jsTrim msg) true,
                Event.webhookCall ⟨jsTrim msg, uid, convId⟩,
                Event.insertAssistantMsg convId r.body true,
                Event.updateTimestamp convId true]⟩ := by
            simp [ChatTsx.sendMessage, hm, hok]
          rw [hout]; exact h3
    · have hout : ChatTsx.sendMessage db t msg (some convId) (some uid)
          ⟨true, some r, ia, up⟩ =
          ⟨(db.insertMessage convId (jsTrim msg) "user").1,
           t ++ [(db.insertMessage convId (jsTrim msg) "user").2],
           [Event.insertUserMsg convId (jsTrim msg) true,
            Event.webhookCall ⟨jsTrim msg, uid, convId⟩,
            Event.toastError "Erro na comunicação com o agente"]⟩ := by
        simp [ChatTsx.sendMessage, hm, hok]
      rw [hout]; exact h1

theorem load000_preserves (db : DB) (ui : UI) (url su : Option Nat)
    (env : LoadEnv) (h : Inv (db, ui)) :
    Inv (applyLoadOutcome ui (Part000.createOrLoadConversation db url su env)) := by
  obtain ⟨hwf, hch, hlt⟩ := h
  have hfetch : ∀ cid : Nat,
      Inv (applyLoadOutcome ui ⟨db, some cid, some (fetchMessagesAsc db cid), none, []⟩) :=
    fun cid => ⟨hwf, chrono_fetchMessagesAsc db cid,
      fun m hm => hwf.1 m (mem_fetchMessagesAsc db cid m hm)⟩
  rcases su with _ | uid
  · exact ⟨hwf, hch, hlt⟩
  rcases env with ⟨cq, mq, icv⟩
  rcases url with _ | convId
  · cases cq with
    | false => exact ⟨hwf, hch, hlt⟩
    | true =>
      cases hl : userConversationsDesc db uid with
      | nil =>
        have hout : Part000.createOrLoadConversation db none (some uid) ⟨true, mq, icv⟩ =
            ⟨db, none, none, some "/chat-history", []⟩ := by
          simp [Part000.createOrLoadConversation, hl]
        rw [hout]; exact ⟨hwf, hch, hlt⟩
      | cons c rest =>
        cases mq with
        | false =>
          have hout : Part000.createOrLoadConversation db none (some uid) ⟨true, false, icv⟩ =
              ⟨db, some c.id, none, some "/chat-history",
               ["Não foi possível carregar a conversa"]⟩ := by
            simp [Part000.createOrLoadConversation, hl]
          rw [hout]; exact ⟨hwf, hch, hlt⟩
        | true =>
          have hout : Part000.createOrLoadConversation db none (some uid) ⟨true, true, icv⟩ =
              ⟨db, some c.id, some (fetchMessagesAsc db c.id), none, []⟩ := by
            simp [Part000.createOrLoadConversation, hl]
          rw [hout]; exact hfetch c.id
  · cases cq with
    | false => exact ⟨hwf, hch, hlt⟩
    | true =>
      cases hsc : singleConv db convId uid with
      | none =>
        have hout : Part000.createOrLoadConversation db (some convId) (some uid)
            ⟨true, mq, icv⟩ =
            ⟨db, none, none, some "/chat-history",
             ["Não foi possível carregar a conversa"]⟩ := by
          simp [Part000.createOrLoadConversation, hsc]
        rw [hout]; exact ⟨hwf, hch, hlt⟩
      | some c =>
        cases mq with
        | false =>
          have hout : Part000.createOrLoadConversation db (some convId) (some uid)
              ⟨true, false, icv⟩ =
              ⟨db, some convId, none, some "/chat-history",
               ["Não foi possível carregar a conversa"]⟩ := by
            simp [Part000.createOrLoadConversation, hsc]
          rw [hout]; exact ⟨hwf, hch, hlt⟩
        | true =>
          have hout : Part000.createOrLoadConversation db (some convId) (some uid)
              ⟨true, true, icv⟩ =
              ⟨db, some convId, some (fetchMessagesAsc db convId), none, []⟩ := by
            simp [Part000.createOrLoadConversation, hsc]
          rw [hout]; exact hfetch convId

theorem loadTsx_preserves (db : DB) (ui : UI) (su : Option Nat)
    (env : LoadEnv) (h : Inv (db, ui)) :
    Inv (applyLoadOutcome ui (ChatTsx.createOrLoadConversation db su env)) := by
  obtain ⟨hwf, hch, hlt⟩ := h
  rcases su with _ | uid
  · exact ⟨hwf, hch, hlt⟩
  rcases env with ⟨cq, mq, icv⟩
  cases cq with
  | false => exact ⟨hwf, hch, hlt⟩
  | true =>
    cases hl : userConversationsDesc db uid with
    | nil =>
      cases icv with
      | false =>
        have hout : ChatTsx.createOrLoadConversation db (some uid) ⟨true, mq, false⟩ =
            ⟨db, none, none, none, ["Não foi possível carregar a conversa"]⟩ := by
          simp [ChatTsx.createOrLoadConversation, hl]
        rw [hout]; exact ⟨hwf, hch, hlt⟩
      | true =>
        have hout : ChatTsx.createOrLoadConversation db (some uid) ⟨true, mq, true⟩ =
            ⟨(db.insertConversation uid "Nova Conversa").1,
             some (db.insertConversation uid "Nova Conversa").2.id,
             some [], none, []⟩ := by
          simp [ChatTsx.createOrLoadConversation, hl]
        rw [hout]
        exact ⟨wf_insertConversation db uid "Nova Conversa" hwf,
          List.sorted_nil, fun m hm => nomatch hm⟩
    | cons c rest =>
      cases mq with
      | false =>
        have hout : ChatTsx.createOrLoadConversation db (some uid) ⟨true, false, icv⟩ =
            ⟨db, some c.id, none, none,
             ["Não foi possível carregar a conversa"]⟩ := by
          simp [ChatTsx.createOrLoadConversation, hl]
        rw [hout]; exact ⟨hwf, hch, hlt⟩
      | true =>
        have hout : ChatTsx.createOrLoadConversation db (some uid) ⟨true, true, icv⟩ =
            ⟨db, some c.id, some (fetchMessagesAsc db c.id), none, []⟩ := by
          simp [ChatTsx.createOrLoadConversation, hl]
        rw [hout]
        exact ⟨hwf, chrono_fetchMessagesAsc db c.id,
          fun m hm => hwf.1 m (mem_fetchMessagesAsc db c.id m hm)⟩

theorem chatStep_preserves (s s' : DB × UI) (hstep : ChatStep s s')
    (h : Inv s) : Inv s' := by
  cases hstep with
  | load000 db ui url su env => exact load000_preserves db ui url su env h
  | loadTsx db ui su env => exact loadTsx_preserves db ui su env h
  | send000 db ui input su env =>
    exact send000_preserves db ui.transcript input ui.currentConversation su env
      h.1 h.2.1 h.2.2
  | sendTsx db ui input su env =>
    exact sendTsx_preserves db ui.transcript input ui.currentConversation su env
      h.1 h.2.1 h.2.2

theorem reach_inv (s0 s : DB × UI) (hInv : Inv s0)
    (h : Relation.ReflTransGen ChatStep s0 s) : Inv s := by
  induction h with
  | refl => exact hInv
  | tail _ hstep ih => exact chatStep_preserves _ _ hstep ih

/-- C1: with non-empty trimmed input, an active conversation and a session,
a fully successful send (user insert ok, webhook 2xx with non-blank body,
assistant insert ok, update ok) appends exactly two new message rows to the
conversation — first role user with the trimmed input, then role assistant
with the webhook's response body — and then sets the conversation's
updated_at to the current time (the clock value at the update step); the
Chat.tsx variant produces the identical outcome. -/
theorem C1_full_success_two_messages_then_touch (db : DB)
    (transcript : List Message) (msg : String) (convId uid : Nat)
    (r : WebhookResponse)
    (hmsg : jsTrim msg ≠ "") (hok : r.ok = true) (hbody : jsTrim r.body ≠ "") :
    Part000.sendMessage db transcript msg (some convId) (some uid)
        ⟨true, some r, true, true⟩ =
      ⟨{ db with
           messages := db.messages ++
             [⟨db.nextId, convId, jsTrim msg, "user", db.clock⟩,
              ⟨db.nextId + 1, convId, r.body, "assistant", db.clock + 1⟩],
           conversations := db.conversations.map fun c =>
             if c.id = convId then { c with updated_at := db.clock + 2 } else c,
           nextId := db.nextId + 2,
           clock := db.clock + 3 },
       transcript ++
         [⟨db.nextId, convId, jsTrim msg, "user", db.clock⟩,
          ⟨db.nextId + 1, convId, r.body, "assistant", db.clock + 1⟩],
       [Event.insertUserMsg convId (jsTrim msg) true,
        Event.webhookCall ⟨jsTrim msg, uid, convId⟩,
        Event.insertAssistantMsg convId r.body true,
        Event.updateTimestamp convId true]⟩ ∧
    ChatTsx.sendMessage db transcript msg (some convId) (some uid)
        ⟨true, some r, true, true⟩ =
      Part000.sendMessage db transcript msg (some convId) (some uid)
        ⟨true, some r, true, true⟩ := by
  constructor
  · simp [Part000.sendMessage, DB.insertMessage, DB.touchConversation, hmsg, hok, hbody]
  · simp [Part000.sendMessage, ChatTsx.sendMessage, DB.insertMessage,
      DB.touchConversation, hmsg, hok, hbody]

/-- C1 witness: the spec's scenario input evaluated concretely. -/
theorem C1_witness :
    jsTrim "What is a good ETF?" ≠ "" ∧
    (⟨200, "Consider low-cost index funds."⟩ : WebhookResponse).ok = true ∧
    jsTrim "Consider low-cost index funds." ≠ "" ∧
    (Part000.sendMessage ⟨[⟨1, 7, "t", 0, 0⟩], [], 2, 5⟩ [] "What is a good ETF?"
        (some 1) (some 7)
        ⟨true, some ⟨200, "Consider low-cost index funds."⟩, true, true⟩).db.messages =
      [⟨2, 1, "What is a good ETF?", "user", 5⟩,
       ⟨3, 1, "Consider low-cost index funds.", "assistant", 6⟩] := by
  refine ⟨by decide, by decide, by decide, ?_⟩
  have h := C1_full_success_two_messages_then_touch ⟨[⟨1, 7, "t", 0, 0⟩], [], 2, 5⟩
    [] "What is a good ETF?" 1 7 ⟨200, "Consider low-cost index funds."⟩
    (by decide) (by decide) (by decide)
  rw [h.1]
  decide

/-- C2: for every accepted (non-blank) input, each variant's trace contains
exactly one user-message insert; whenever the webhook is called, the trace
begins with that insert succeeding, immediately followed by the webhook
call with payload (trimmed message, user id, conversation id), and the
user message row is persisted in the resulting database. -/
theorem C2_user_insert_precedes_webhook (db : DB) (transcript : List Message)
    (msg : String) (convId uid : Nat) (env : SendEnv) (hmsg : jsTrim msg ≠ "") :
    ((Part000.sendMessage db transcript msg (some convId) (some uid) env).trace.countP
        Event.isUserInsert = 1 ∧
     ((Part000.sendMessage db transcript msg (some convId) (some uid) env).trace.countP
        Event.isWebhookCall ≠ 0 →
       env.insertUserOk = true ∧
       (∃ tl, (Part000.sendMessage db transcript msg (some convId) (some uid) env).trace =
          Event.insertUserMsg convId (jsTrim msg) true ::
          Event.webhookCall ⟨jsTrim msg, uid, convId⟩ :: tl) ∧
       (⟨db.nextId, convId, jsTrim msg, "user", db.clock⟩ : Message) ∈
         (Part000.sendMessage db transcript msg (some convId) (some uid) env).db.messages)) ∧
    ((ChatTsx.sendMessage db transcript msg (some convId) (some uid) env).trace.countP
        Event.isUserInsert = 1 ∧
     ((ChatTsx.sendMessage db transcript msg (some convId) (some uid) env).trace.countP
        Event.isWebhookCall ≠ 0 →
       env.insertUserOk = true ∧
       (∃ tl, (ChatTsx.sendMessage db transcript msg (some convId) (some uid) env).trace =
          Event.insertUserMsg convId (jsTrim msg) true ::
          Event.webhookCall ⟨jsTrim msg, uid, convId⟩ :: tl) ∧
       (⟨db.nextId, convId, jsTrim msg, "user", db.clock⟩ : Message) ∈
         (ChatTsx.sendMessage db transcript msg (some convId) (some uid) env).db.messages)) := by
  rcases env with ⟨iu, wr, ia, up⟩
  cases iu <;> rcases wr with _ | r <;> cases ia <;> cases up <;>
    simp [Part000.sendMessage, ChatTsx.sendMessage, DB.insertMessage, DB.touchConversation,
      hmsg, Event.isUserInsert, Event.isWebhookCall] <;>
    by_cases hok : r.ok = true <;>
    simp [hok] <;>
    by_cases hbody : jsTrim r.body = "" <;>
    simp [hbody, Event.isUserInsert, Event.isWebhookCall]

/-- C2 witness: concrete run of both variants under a failing webhook. -/
theorem C2_witness :
    jsTrim "hi" ≠ "" ∧
    ((Part000.sendMessage ⟨[⟨1, 7, "t", 0, 0⟩], [], 2, 5⟩ [] "hi" (some 1) (some 7)
        ⟨true, some ⟨500, ""⟩, true, true⟩).trace.countP Event.isUserInsert = 1) := by
  refine ⟨by decide, ?_⟩
  exact (C2_user_insert_precedes_webhook ⟨[⟨1, 7, "t", 0, 0⟩], [], 2, 5⟩ [] "hi" 1 7
    ⟨true, some ⟨500, ""⟩, true, true⟩ (by decide)).1.1

/-- C3: when the webhook answers with a non-2xx status, both variants leave
exactly the freshly inserted user message in storage, insert no assistant
message, perform no updated_at refresh (conversations are untouched), and
surface an error toast. -/
theorem C3_non2xx_no_assistant_no_touch (db : DB) (transcript : List Message)
    (msg : String) (convId uid : Nat) (r : WebhookResponse) (ia up : Bool)
    (hmsg : jsTrim msg ≠ "") (hok : r.ok = false) :
    Part000.sendMessage db transcript msg (some convId) (some uid) ⟨true, some r, ia, up⟩ =
      ⟨{ db with
           messages := db.messages ++ [⟨db.nextId, convId, jsTrim msg, "user", db.clock⟩],
           nextId := db.nextId + 1,
           clock := db.clock + 1 },
       transcript ++ [⟨db.nextId, convId, jsTrim msg, "user", db.clock⟩],
       [Event.insertUserMsg convId (jsTrim msg) true,
        Event.webhookCall ⟨jsTrim msg, uid, convId⟩,
        Event.toastError ("Erro na comunicação com o agente: " ++ toString r.status)]⟩ ∧
    ChatTsx.sendMessage db transcript msg (some convId) (some uid) ⟨true, some r, ia, up⟩ =
      ⟨{ db with
           messages := db.messages ++ [⟨db.nextId, convId, jsTrim msg, "user", db.clock⟩],
           nextId := db.nextId + 1,
           clock := db.clock + 1 },
       transcript ++ [⟨db.nextId, convId, jsTrim msg, "user", db.clock⟩],
       [Event.insertUserMsg convId (jsTrim msg) true,
        Event.webhookCall ⟨jsTrim msg, uid, convId⟩,
        Event.toastError "Erro na comunicação com o agente"]⟩ := by
  constructor <;>
    simp [Part000.sendMessage, ChatTsx.sendMessage, DB.insertMessage, hmsg, hok]

/-- C3 witness: concrete run with an HTTP 500 reply. -/
theorem C3_witness :
    jsTrim "hi" ≠ "" ∧ (⟨500, "x"⟩ : WebhookResponse).ok = false ∧
    (Part000.sendMessage ⟨[⟨1, 7, "t", 0, 0⟩], [], 2, 5⟩ [] "hi" (some 1) (some 7)
        ⟨true, some ⟨500, "x"⟩, true, true⟩).db.messages =
      [⟨2, 1, "hi", "user", 5⟩] := by
  refine ⟨by decide, by decide, ?_⟩
  have h := C3_non2xx_no_assistant_no_touch ⟨[⟨1, 7, "t", 0, 0⟩], [], 2, 5⟩ [] "hi" 1 7
    ⟨500, "x"⟩ true true (by decide) (by decide)
  rw [h.1]
  decide

/-- C5: with an explicit conversation id in the URL whose (id, user) lookup
returns no row, the part_000 load fails: an error toast is shown, the user
is redirected to /chat-history, and neither currentConversation nor the
transcript is set. -/
theorem C5_url_conversation_not_found_redirects (db : DB) (convId uid : Nat)
    (mq ic : Bool)
    (hnone : db.conversations.filter (fun c => c.id == convId && c.user_id == uid) = []) :
    Part000.createOrLoadConversation db (some convId) (some uid) ⟨true, mq, ic⟩ =
      ⟨db, none, none, some "/chat-history", ["Não foi possível carregar a conversa"]⟩ := by
  simp [Part000.createOrLoadConversation, singleConv, hnone]

/-- C5 witness: looking up a conversation id the user does not own. -/
theorem C5_witness :
    ((⟨[⟨1, 7, "t", 0, 0⟩], [], 2, 5⟩ : DB)).conversations.filter
      (fun c => c.id == 9 && c.user_id == 7) = [] ∧
    Part000.createOrLoadConversation ⟨[⟨1, 7, "t", 0, 0⟩], [], 2, 5⟩ (some 9) (some 7)
        ⟨true, true, true⟩ =
      ⟨⟨[⟨1, 7, "t", 0, 0⟩], [], 2, 5⟩, none, none, some "/chat-history",
       ["Não foi possível carregar a conversa"]⟩ :=
  ⟨by decide,
   C5_url_conversation_not_found_redirects ⟨[⟨1, 7, "t", 0, 0⟩], [], 2, 5⟩ 9 7
     true true (by decide)⟩

/-- C6: without an explicit conversation id: when the session user has no
conversations, the part_000 variant redirects to /chat-history creating
nothing, while the Chat.tsx variant creates a conversation titled exactly
Nova Conversa for that user and starts with an empty transcript; when the
user has conversations, both variants load a conversation of that user with
maximal updated_at, with its messages. -/
theorem C6_no_url_most_recent_or_create (db : DB) (uid : Nat) (mq ic : Bool) :
    ((db.conversations.filter fun c => c.user_id == uid) = [] →
      Part000.createOrLoadConversation db none (some uid) ⟨true, mq, ic⟩ =
        ⟨db, none, none, some "/chat-history", []⟩ ∧
      ChatTsx.createOrLoadConversation db (some uid) ⟨true, mq, true⟩ =
        ⟨{ db with
             conversations := db.conversations ++
               [⟨db.nextId, uid, "Nova Conversa", db.clock, db.clock⟩],
             nextId := db.nextId + 1,
             clock := db.clock + 1 },
         some db.nextId, some [], none, []⟩) ∧
    ((db.conversations.filter fun c => c.user_id == uid) ≠ [] →
      ∃ c, c ∈ db.conversations ∧ c.user_id = uid ∧
        (∀ x ∈ db.conversations, x.user_id = uid → x.updated_at ≤ c.updated_at) ∧
        Part000.createOrLoadConversation db none (some uid) ⟨true, true, ic⟩ =
          ⟨db, some c.id, some (fetchMessagesAsc db c.id), none, []⟩ ∧
        ChatTsx.createOrLoadConversation db (some uid) ⟨true, true, ic⟩ =
          ⟨db, some c.id, some (fetchMessagesAsc db c.id), none, []⟩) := by
  constructor
  · intro hnone
    constructor
    · simp [Part000.createOrLoadConversation, userConversationsDesc, hnone]
    · simp [ChatTsx.createOrLoadConversation, userConversationsDesc, hnone,
        DB.insertConversation]
  · intro hne
    rcases sortDesc_head_max _ hne with ⟨c, rest, hs, hmem, hmax⟩
    refine ⟨c, (List.mem_filter.mp hmem).1, by simpa using (List.mem_filter.mp hmem).2,
      ?_, ?_, ?_⟩
    · intro x hx hxu
      exact hmax x (List.mem_filter.mpr ⟨hx, by simpa using hxu⟩)
    · simp [Part000.createOrLoadConversation, userConversationsDesc, hs]
    · simp [ChatTsx.createOrLoadConversation, userConversationsDesc, hs]

/-- C6 witness: a user with no conversations, both variants evaluated. -/
theorem C6_witness :
    ((⟨[⟨1, 7, "t", 0, 0⟩], [], 2, 5⟩ : DB)).conversations.filter
      (fun c => c.user_id == 8) = [] ∧
    ChatTsx.createOrLoadConversation ⟨[⟨1, 7, "t", 0, 0⟩], [], 2, 5⟩ (some 8)
        ⟨true, true, true⟩ =
      ⟨⟨[⟨1, 7, "t", 0, 0⟩, ⟨2, 8, "Nova Conversa", 5, 5⟩], [], 3, 6⟩,
       some 2, some [], none, []⟩ := by
  refine ⟨by decide, ?_⟩
  have h := (C6_no_url_most_recent_or_create ⟨[⟨1, 7, "t", 0, 0⟩], [], 2, 5⟩ 8
    true true).1 (by decide)
  rw [h.2]
  decide

/-- C8: the history screen lists exactly the conversations whose user_id is
the session user, ordered by updated_at descending with no limit; and after
creating a new conversation (whose updated_at is the current time, strictly
later than every stored timestamp in a sane database), that conversation is
first in the list. -/
theorem C8_history_listing (db : DB) (uid : Nat) (d : String) :
    (∀ c, c ∈ (ChatHistory.loadConversations db (some uid) true).1 ↔
        c ∈ db.conversations ∧ c.user_id = uid) ∧
    List.Sorted updatedGE (ChatHistory.loadConversations db (some uid) true).1 ∧
    (DB.wf db →
      (ChatHistory.loadConversations
          (ChatHistory.createNewConversation db (some uid) d true).1 (some uid) true).1.head? =
        some ⟨db.nextId, uid, "Nova Conversa " ++ d, db.clock, db.clock⟩) := by
  refine ⟨?_, ?_, ?_⟩
  · intro c
    simp [ChatHistory.loadConversations, userConversationsDesc, List.mem_filter]
  · simpa [ChatHistory.loadConversations, userConversationsDesc] using
      List.sorted_insertionSort updatedGE
        (db.conversations.filter fun c => c.user_id == uid)
  · intro hwf
    have hdb1 : (ChatHistory.createNewConversation db (some uid) d true).1 =
        { db with
            conversations := db.conversations ++
              [⟨db.nextId, uid, "Nova Conversa " ++ d, db.clock, db.clock⟩],
            nextId := db.nextId + 1,
            clock := db.clock + 1 } := by
      simp [ChatHistory.createNewConversation, DB.insertConversation]
    rw [hdb1]
    show ((( db.conversations ++
        [(⟨db.nextId, uid, "Nova Conversa " ++ d, db.clock, db.clock⟩ : Conversation)]).filter
          fun c => c.user_id == uid).insertionSort updatedGE).head? = _
    apply sortDesc_head_of_strict_max
    · refine List.mem_filter.mpr ⟨List.mem_append_right _ (List.mem_singleton_self _), ?_⟩
      simp
    · intro x hx hne
      rcases List.mem_append.mp (List.mem_filter.mp hx).1 with hold | hnew
      · exact hwf.2 x hold
      · exact absurd (List.mem_singleton.mp hnew) hne

/-- C7: in every state reachable from an invariant-satisfying state by
conversation loads and message sends (either variant, any environment), the
displayed transcript is ordered by message creation time non-decreasingly. -/
theorem C7_transcript_chronological (s0 s : DB × UI) (hInv : Inv s0)
    (h : Relation.ReflTransGen ChatStep s0 s) : Chrono s.2.transcript :=
  (reach_inv s0 s hInv h).2.1

/-- C7 witness: one concrete send step from a concrete sane state. -/
theorem C7_witness :
    Inv ((⟨[⟨1, 7, "t", 0, 0⟩], [], 2, 5⟩ : DB), (⟨[], some 1⟩ : UI)) ∧
    Chrono ((Part000.sendMessage ⟨[⟨1, 7, "t", 0, 0⟩], [], 2, 5⟩ [] "hi" (some 1) (some 7)
        ⟨true, some ⟨200, "resp"⟩, true, true⟩).transcript) := by
  have hinv : Inv ((⟨[⟨1, 7, "t", 0, 0⟩], [], 2, 5⟩ : DB), (⟨[], some 1⟩ : UI)) := by
    refine ⟨⟨fun m hm => absurd hm (List.not_mem_nil m), ?_⟩, List.sorted_nil,
      fun m hm => absurd hm (List.not_mem_nil m)⟩
    decide
  exact ⟨hinv,
    C7_transcript_chronological ((⟨[⟨1, 7, "t", 0, 0⟩], [], 2, 5⟩ : DB), (⟨[], some 1⟩ : UI))
      _ hinv
      (Relation.ReflTransGen.single
        (ChatStep.send000 ⟨[⟨1, 7, "t", 0, 0⟩], [], 2, 5⟩ ⟨[], some 1⟩ "hi" (some 7)
          ⟨true, some ⟨200, "resp"⟩, true, true⟩))⟩

/-- C8 witness: concrete create-then-list run showing the new conversation
first. -/
theorem C8_witness :
    DB.wf (⟨[⟨1, 7, "t", 0, 0⟩], [], 2, 5⟩ : DB) ∧
    (ChatHistory.loadConversations
        (ChatHistory.createNewConversation ⟨[⟨1, 7, "t", 0, 0⟩], [], 2, 5⟩ (some 7)
          "01/01/2026" true).1 (some 7) true).1.head? =
      some ⟨2, 7, "Nova Conversa 01/01/2026", 5, 5⟩ := by
  have hwf : DB.wf (⟨[⟨1, 7, "t", 0, 0⟩], [], 2, 5⟩ : DB) :=
    ⟨fun m hm => absurd hm (List.not_mem_nil m), by decide⟩
  refine ⟨hwf, ?_⟩
  have h := (C8_history_listing ⟨[⟨1, 7, "t", 0, 0⟩], [], 2, 5⟩ 7 "01/01/2026").2.2 hwf
  rw [h]
  decide

/-- C4 counterexample: in the Chat.tsx variant an HTTP 200 reply with an
empty body does not fail — the empty body is persisted as an assistant
message, updated_at is refreshed and no error is surfaced. -/
theorem C4_counterexample :
    (⟨200, ""⟩ : WebhookResponse).ok = true ∧
    (ChatTsx.sendMessage ⟨[⟨1, 7, "t", 0, 0⟩], [], 2, 5⟩ [] "hi" (some 1) (some 7)
        ⟨true, some ⟨200, ""⟩, true, true⟩).db.messages =
      [⟨2, 1, "hi", "user", 5⟩, ⟨3, 1, "", "assistant", 6⟩] ∧
    (ChatTsx.sendMessage ⟨[⟨1, 7, "t", 0, 0⟩], [], 2, 5⟩ [] "hi" (some 1) (some 7)
        ⟨true, some ⟨200, ""⟩, true, true⟩).db.conversations = [⟨1, 7, "t", 0, 7⟩] ∧
    (ChatTsx.sendMessage ⟨[⟨1, 7, "t", 0, 0⟩], [], 2, 5⟩ [] "hi" (some 1) (some 7)
        ⟨true, some ⟨200, ""⟩, true, true⟩).trace.countP Event.isToast = 0 := by
  decide

/-- C4 amended: in the part_000 variant a 2xx reply whose trimmed body is
empty fails exactly like a non-2xx status (no assistant insert, no
updated_at refresh, error toast, user message kept), while the Chat.tsx
variant performs no empty-body check and runs the full success path,
persisting the body as the assistant message and refreshing updated_at. -/
theorem C4_blank_body_split (db : DB) (transcript : List Message) (msg : String)
    (convId uid : Nat) (r : WebhookResponse) (ia up : Bool)
    (hmsg : jsTrim msg ≠ "") (hok : r.ok = true) (hb : jsTrim r.body = "") :
    Part000.sendMessage db transcript msg (some convId) (some uid) ⟨true, some r, ia, up⟩ =
      ⟨{ db with
           messages := db.messages ++ [⟨db.nextId, convId, jsTrim msg, "user", db.clock⟩],
           nextId := db.nextId + 1,
           clock := db.clock + 1 },
       transcript ++ [⟨db.nextId, convId, jsTrim msg, "user", db.clock⟩],
       [Event.insertUserMsg convId (jsTrim msg) true,
        Event.webhookCall ⟨jsTrim msg, uid, convId⟩,
        Event.toastError "Resposta vazia do agente IA"]⟩ ∧
    ChatTsx.sendMessage db transcript msg (some convId) (some uid) ⟨true, some r, true, true⟩ =
      ⟨{ db with
           messages := db.messages ++
             [⟨db.nextId, convId, jsTrim msg, "user", db.clock⟩,
              ⟨db.nextId + 1, convId, r.body, "assistant", db.clock + 1⟩],
           conversations := db.conversations.map fun c =>
             if c.id = convId then { c with updated_at := db.clock + 2 } else c,
           nextId := db.nextId + 2,
           clock := db.clock + 3 },
       transcript ++
         [⟨db.nextId, convId, jsTrim msg, "user", db.clock⟩,
          ⟨db.nextId + 1, convId, r.body, "assistant", db.clock + 1⟩],
       [Event.insertUserMsg convId (jsTrim msg) true,
        Event.webhookCall ⟨jsTrim msg, uid, convId⟩,
        Event.insertAssistantMsg convId r.body true,
        Event.updateTimestamp convId true]⟩ := by
  constructor <;>
    simp [Part000.sendMessage, ChatTsx.sendMessage, DB.insertMessage,
      DB.touchConversation, hmsg, hok, hb]

/-- C4 witness: whitespace-only 200 reply against the part_000 variant. -/
theorem C4_witness :
    jsTrim "hi" ≠ "" ∧ (⟨200, " "⟩ : WebhookResponse).ok = true ∧ jsTrim " " = "" ∧
    (Part000.sendMessage ⟨[⟨1, 7, "t", 0, 0⟩], [], 2, 5⟩ [] "hi" (some 1) (some 7)
        ⟨true, some ⟨200, " "⟩, true, true⟩).db.messages = [⟨2, 1, "hi", "user", 5⟩] := by
  refine ⟨by decide, by decide, by decide, ?_⟩
  have h := C4_blank_body_split ⟨[⟨1, 7, "t", 0, 0⟩], [], 2, 5⟩ [] "hi" 1 7 ⟨200, " "⟩
    true true (by decide) (by decide) (by decide)
  rw [h.1]
  decide

/-- C10 counterexample: on a 2xx reply whose body is the non-empty string
of one space, the two variants diverge — part_000 persists no assistant
message while Chat.tsx persists one. -/
theorem C10_counterexample :
    ("" ≠ " ") ∧ (⟨200, " "⟩ : WebhookResponse).ok = true ∧
    ¬ (Part000.sendMessage ⟨[⟨1, 7, "t", 0, 0⟩], [], 2, 5⟩ [] "hi" (some 1) (some 7)
         ⟨true, some ⟨200, " "⟩, true, true⟩ =
       ChatTsx.sendMessage ⟨[⟨1, 7, "t", 0, 0⟩], [], 2, 5⟩ [] "hi" (some 1) (some 7)
         ⟨true, some ⟨200, " "⟩, true, true⟩) ∧
    (Part000.sendMessage ⟨[⟨1, 7, "t", 0, 0⟩], [], 2, 5⟩ [] "hi" (some 1) (some 7)
        ⟨true, some ⟨200, " "⟩, true, true⟩).trace.countP Event.isAssistantInsert = 0 ∧
    (ChatTsx.sendMessage ⟨[⟨1, 7, "t", 0, 0⟩], [], 2, 5⟩ [] "hi" (some 1) (some 7)
        ⟨true, some ⟨200, " "⟩, true, true⟩).trace.countP Event.isAssistantInsert = 1 := by
  decide

/-- C10 amended: whenever the webhook returns 2xx with a body whose trimmed
value is non-empty and all storage calls succeed, the two send variants
produce identical outcomes: same database writes, same transcript and the
same event trace (user insert, webhook call with payload, assistant insert,
updated_at refresh, in that order). -/
theorem C10_equiv_on_success (db : DB) (transcript : List Message) (msg : String)
    (convId uid : Nat) (r : WebhookResponse)
    (hmsg : jsTrim msg ≠ "") (hok : r.ok = true) (hbody : jsTrim r.body ≠ "") :
    Part000.sendMessage db transcript msg (some convId) (some uid)
        ⟨true, some r, true, true⟩ =
      ChatTsx.sendMessage db transcript msg (some convId) (some uid)
        ⟨true, some r, true, true⟩ := by
  simp [Part000.sendMessage, ChatTsx.sendMessage, DB.insertMessage,
    DB.touchConversation, hmsg, hok, hbody]

/-- C10 witness: both variants evaluated on a concrete successful send. -/
theorem C10_witness :
    jsTrim "hi" ≠ "" ∧ (⟨200, "ok"⟩ : WebhookResponse).ok = true ∧ jsTrim "ok" ≠ "" ∧
    Part000.sendMessage ⟨[⟨1, 7, "t", 0, 0⟩], [], 2, 5⟩ [] "hi" (some 1) (some 7)
        ⟨true, some ⟨200, "ok"⟩, true, true⟩ =
      ChatTsx.sendMessage ⟨[⟨1, 7, "t", 0, 0⟩], [], 2, 5⟩ [] "hi" (some 1) (some 7)
        ⟨true, some ⟨200, "ok"⟩, true, true⟩ :=
  ⟨by decide, by decide, by decide,
   C10_equiv_on_success ⟨[⟨1, 7, "t", 0, 0⟩], [], 2, 5⟩ [] "hi" 1 7 ⟨200, "ok"⟩
     (by decide) (by decide) (by decide)⟩

end AgentChat
